import Mathlib

/-!
Verification development for the EVAA MCP server (`src/server.py`).

The Python source is shallowly embedded over `List Char`:
  * the search pattern `\[KEY:\s*([^\]]+)\]` under `re.search`  →
    `reSearch key m` (leftmost match, captured value with Python strip
    applied — since whitespace is a non-`]` character, the stripped group
    of `\s*([^\]]+)` equals the stripped maximal run of non-`]`
    characters after the literal `[KEY:`);
  * the deletion pattern `\[KEY:[^\]]*\]\s*` under `re.sub` with empty
    replacement  →  `reSub key m` (leftmost, non-overlapping matches
    deleted, scanning resumes after each match);
  * Python truthiness of optional strings (`None` and the empty string are
    falsy) → `truthy`, and the Python `or` operator → `pyOr`;
  * the Pinecone round trip is a parameter: an `Except`-style outcome
    (`SearchOutcome`), the raised-exception text or the reranked hit list;
  * `try/except` around the otherwise-total form-tool bodies is modelled by
    an explicit `fault : Option (List Char)` input, the description of an
    exception raised inside the `try` block, `none` when nothing raises;
  * the wall clock `int(time.time() * 1000)` is a `Nat` parameter, and the
    configured URL templates (imported from `config`, outside the sources)
    are parameters as well.
-/

namespace Evaa

/-- Python `\s` / `str.strip()` whitespace characters (core ASCII set). -/
def isSpacePy (c : Char) : Bool :=
  c = ' ' || c = '\t' || c = '\n' || c = '\r' || c = '\x0b' || c = '\x0c'

/-- Python `str.strip()`: drop whitespace from both ends. -/
def pyStrip (l : List Char) : List Char :=
  ((l.dropWhile isSpacePy).reverse.dropWhile isSpacePy).reverse

/-- Consume a literal: `dropLit p l = some r` iff `l = p ++ r`. -/
def dropLit : List Char → List Char → Option (List Char)
  | [], l => some l
  | _ :: _, [] => none
  | p :: ps, c :: cs => if p = c then dropLit ps cs else none

/-- The literal opening of a tag: `[KEY:`. -/
def tagLit (key : List Char) : List Char :=
  '[' :: key ++ [':']

/-- Match of the deletion pattern `\[KEY:[^\]]*\]\s*` at the head of `l`:
returns the remainder after the match (the trailing whitespace run
consumed), or `none`.  After `dropWhile (· ≠ ']')` a nonempty remainder
necessarily starts with the closing `]` required by the pattern, so the
head is dropped without re-testing it. -/
def subMatch (key : List Char) (l : List Char) : Option (List Char) :=
  (dropLit (tagLit key) l).bind fun r =>
    if (r.dropWhile (· ≠ ']')).isEmpty then none
    else some ((r.dropWhile (· ≠ ']')).tail.dropWhile isSpacePy)

/-- Match of the capture pattern `\[KEY:\s*([^\]]+)\]` at the head of `l`:
returns the captured value after `str.strip()`, or `none`.  The group must
hold at least one non-`]` character (whitespace qualifies, so the stripped
group of `\s*([^\]]+)` is the stripped run of non-`]` characters); a
nonempty `dropWhile (· ≠ ']')` remainder supplies the closing `]`. -/
def searchMatch (key : List Char) (l : List Char) : Option (List Char) :=
  (dropLit (tagLit key) l).bind fun r =>
    if (r.dropWhile (· ≠ ']')).isEmpty then none
    else if (r.takeWhile (· ≠ ']')).isEmpty then none
    else some (pyStrip (r.takeWhile (· ≠ ']')))

/-- Fuel-indexed engine of `re.sub` with empty replacement: scan left to right,
delete each leftmost match and resume after it. `fuel ≥ l.length` is enough
because every step consumes at least one character. -/
def reSubF (key : List Char) : Nat → List Char → List Char
  | 0, l => l
  | _ + 1, [] => []
  | f + 1, c :: r =>
    match subMatch key (c :: r) with
    | some rest => reSubF key f rest
    | none => c :: reSubF key f r

/-- Deletion of every match of `\[KEY:[^\]]*\]\s*` from `l`, as `re.sub` does. -/
def reSub (key : List Char) (l : List Char) : List Char :=
  reSubF key l.length l

/-- Fuel-indexed engine of `re.search`: return the leftmost capture. -/
def reSearchF (key : List Char) : Nat → List Char → Option (List Char)
  | 0, _ => none
  | _ + 1, [] => none
  | f + 1, c :: r =>
    match searchMatch key (c :: r) with
    | some v => some v
    | none => reSearchF key f r

/-- Leftmost match of `\[KEY:\s*([^\]]+)\]` in `l`, the stripped captured group. -/
def reSearch (key : List Char) (l : List Char) : Option (List Char) :=
  reSearchF key l.length l

/-- Result record of `extract_context_from_message`. -/
structure Ctx where
  session_id : Option (List Char)
  path : Option (List Char)
  bot_id : Option (List Char)
  clean_message : List Char
deriving DecidableEq

/-- Embedding of `extract_context_from_message` (src/server.py lines
29–55): three `re.search` captures and three chained `re.sub` deletions
followed by `str.strip()`. -/
def extract_context_from_message (m : List Char) : Ctx :=
  { session_id := reSearch "SESSION_ID".data m
    path := reSearch "PATH".data m
    bot_id := reSearch "BOT_ID".data m
    clean_message :=
      pyStrip (reSub "BOT_ID".data (reSub "PATH".data (reSub "SESSION_ID".data m))) }

/-- Python truthiness of an optional string: `None` and the empty string are falsy. -/
def truthy : Option (List Char) → Bool
  | none => false
  | some s => !s.isEmpty

/-- Python `a or b` on optional strings. -/
def pyOr (a b : Option (List Char)) : Option (List Char) :=
  if truthy a then a else b

/-- Python `needle in haystack` on strings: substring occurrence. -/
def hasInfix (needle : List Char) : List Char → Bool
  | [] => (dropLit needle []).isSome
  | c :: r => (dropLit needle (c :: r)).isSome || hasInfix needle r

/-- The detection gate of every tool (e.g. src/server.py line 70/167):
the query is truthy and holds one of the literal markers `[SESSION_ID:`,
`[PATH:` or `[BOT_ID:`. -/
def hasTagGate (q : List Char) : Bool :=
  !q.isEmpty &&
    (hasInfix "[SESSION_ID:".data q || hasInfix "[PATH:".data q ||
      hasInfix "[BOT_ID:".data q)

/-- Python `str.split('/')`.  The recursive result is never `[]`, so the
non-separator case prepends to its head. -/
def splitSlash : List Char → List (List Char)
  | [] => [[]]
  | c :: r =>
    if c = '/' then [] :: splitSlash r
    else (c :: (splitSlash r).headD []) :: (splitSlash r).tail

/-- Python `str.strip('/')`. -/
def pyStripSlash (l : List Char) : List Char :=
  ((l.dropWhile (· = '/')).reverse.dropWhile (· = '/')).reverse

/-- Embedding of `get_bot_id_from_path` (src/server.py lines 58–62):
`if not path: return ""` then `path.strip('/').split('/')[-1]`.  The
argument is optional because the Python caller may pass `None`. -/
def get_bot_id_from_path (path : Option (List Char)) : List Char :=
  match path with
  | none => []
  | some l =>
    if l.isEmpty then []
    else (splitSlash (pyStripSlash l)).getLastD []

/-- Structured form of the JSON object a form tool serializes with
`json.dumps` (success branch: `reply, form_url, success, session_id`;
failure branch: `reply, success, error`). -/
structure FormPayload where
  reply : List Char
  form_url : Option (List Char)
  success : Bool
  session_id : Option (List Char)
  error : Option (List Char)
deriving DecidableEq

/-- The context-merging step shared verbatim by the three form tools
(src/server.py lines 69–73, 101–105, 132–136): when the gate fires, tag
captures override the explicit arguments via Python `or`; the returned pair
is `(session_id, bot_id)` after merging. -/
def formResolve (query : List Char) (session_id bot_id : Option (List Char)) :
    Option (List Char) × Option (List Char) :=
  if hasTagGate query then
    let ctx := extract_context_from_message query
    (pyOr ctx.session_id session_id, pyOr ctx.bot_id bot_id)
  else (session_id, bot_id)

/-- Session defaulting (src/server.py lines 75–76): a falsy session id is
replaced by the literal `fallback-session-id`, after which the session id
is a plain string. -/
def resolveSession (s : Option (List Char)) : List Char :=
  if truthy s then s.getD [] else "fallback-session-id".data

/-- URL stamping (src/server.py lines 79–80): the separator is `&` when the
template already holds a `?` and `?` otherwise, and the template is suffixed
with the session id and the epoch-millisecond timestamp. -/
def stampURL (formURL : List Char) (sessionId : List Char) (nowMs : Nat) :
    List Char :=
  formURL ++ (if hasInfix "?".data formURL then "&".data else "?".data) ++
    "session_id=".data ++ sessionId ++ "&ts=".data ++ (Nat.repr nowMs).data

/-- Embedding of `book_appointment_tool` (src/server.py lines 65–94) at the
payload level.  `fault` is the description of an exception raised inside the
`try` block (`none` when nothing raises); `nowMs` the wall clock;
`formURL1`/`formURL2` the configured templates `FORM_URL_1`/`FORM_URL_2`. -/
def book_appointment_payload (formURL1 formURL2 : List Char) (nowMs : Nat)
    (fault : Option (List Char)) (query : List Char)
    (session_id bot_id : Option (List Char)) : FormPayload :=
  match fault with
  | some e =>
    { reply := "Sorry, I couldn\x27t open the booking form at this moment.".data
      form_url := none, success := false, session_id := none, error := some e }
  | none =>
    let ids := formResolve query session_id bot_id
    let sid := resolveSession ids.1
    let formURL := if ids.2 = some "fp01".data then formURL2 else formURL1
    { reply := "I\x27m opening the appointment booking form for you. Please fill it out to book your appointment.".data
      form_url := some (stampURL formURL sid nowMs)
      success := true, session_id := some sid, error := none }

/-- Embedding of `cancel_appointment_tool` (src/server.py lines 97–125) at
the payload level; `cancelURL` is the configured `cancelAppointmentFormUrl`. -/
def cancel_appointment_payload (cancelURL : List Char) (nowMs : Nat)
    (fault : Option (List Char)) (query : List Char)
    (session_id bot_id : Option (List Char)) : FormPayload :=
  match fault with
  | some e =>
    { reply := "Sorry, I couldn\x27t open the appointment cancellation form at this moment.".data
      form_url := none, success := false, session_id := none, error := some e }
  | none =>
    let ids := formResolve query session_id bot_id
    let sid := resolveSession ids.1
    { reply := "I\x27m opening the appointment cancellation form for you. Please fill it out to cancel your appointment.".data
      form_url := some (stampURL cancelURL sid nowMs)
      success := true, session_id := some sid, error := none }

/-- Embedding of `reschedule_appointment_tool` (src/server.py lines 128–156)
at the payload level; `reschedURL` is `rescheduleAppointmentFormUrl`. -/
def reschedule_appointment_payload (reschedURL : List Char) (nowMs : Nat)
    (fault : Option (List Char)) (query : List Char)
    (session_id bot_id : Option (List Char)) : FormPayload :=
  match fault with
  | some e =>
    { reply := "Sorry, I couldn\x27t open the appointment rescheduling form at this moment.".data
      form_url := none, success := false, session_id := none, error := some e }
  | none =>
    let ids := formResolve query session_id bot_id
    let sid := resolveSession ids.1
    { reply := "I\x27m opening the appointment rescheduling form for you. Please fill it out to reschedule your appointment.".data
      form_url := some (stampURL reschedURL sid nowMs)
      success := true, session_id := some sid, error := none }

/-- One character under `json.dumps` string escaping. -/
def jsonEscChar (c : Char) : List Char :=
  if c = '"' then '\\' :: ['"']
  else if c = '\\' then '\\' :: ['\\']
  else if c = '\n' then '\\' :: ['n']
  else if c = '\t' then '\\' :: ['t']
  else if c = '\r' then '\\' :: ['r']
  else [c]

/-- A JSON string literal as `json.dumps` renders it. -/
def jsonStr (s : List Char) : List Char :=
  '"' :: (s.flatMap jsonEscChar) ++ ['"']

/-- Serialization of a `FormPayload` with `json.dumps` key order:
`reply, form_url, success, session_id` on success and `reply, success,
error` on failure. -/
def renderFormPayload (p : FormPayload) : List Char :=
  if p.success then
    "\x7b\"reply\": ".data ++ jsonStr p.reply ++
      ", \"form_url\": ".data ++ jsonStr (p.form_url.getD []) ++
      ", \"success\": true, \"session_id\": ".data ++
      jsonStr (p.session_id.getD []) ++ "\x7d".data
  else
    "\x7b\"reply\": ".data ++ jsonStr p.reply ++
      ", \"success\": false, \"error\": ".data ++
      jsonStr (p.error.getD []) ++ "\x7d".data

/-- The string `book_appointment_tool` actually returns. -/
def book_appointment_tool (formURL1 formURL2 : List Char) (nowMs : Nat)
    (fault : Option (List Char)) (query : List Char)
    (session_id bot_id : Option (List Char)) : List Char :=
  renderFormPayload
    (book_appointment_payload formURL1 formURL2 nowMs fault query session_id bot_id)

/-- The string `cancel_appointment_tool` actually returns. -/
def cancel_appointment_tool (cancelURL : List Char) (nowMs : Nat)
    (fault : Option (List Char)) (query : List Char)
    (session_id bot_id : Option (List Char)) : List Char :=
  renderFormPayload
    (cancel_appointment_payload cancelURL nowMs fault query session_id bot_id)

/-- The string `reschedule_appointment_tool` actually returns. -/
def reschedule_appointment_tool (reschedURL : List Char) (nowMs : Nat)
    (fault : Option (List Char)) (query : List Char)
    (session_id bot_id : Option (List Char)) : List Char :=
  renderFormPayload
    (reschedule_appointment_payload reschedURL nowMs fault query session_id bot_id)

/-- Outcome of the `index.search_records` round trip: either the raised
exception rendered as text, or the reranked hit list (each hit abstracted
by its Python rendering inside the formatted result). -/
inductive SearchOutcome where
  | err (e : List Char)
  | ok (hits : List (List Char))
deriving DecidableEq

/-- Resolved state of `rag_retrieval_tool` just before the backend call:
merged session id, merged tenant id, search namespace, cleaned query. -/
structure RagResolved where
  session_id : Option (List Char)
  bot_id : Option (List Char)
  nspace : List Char
  query : List Char
deriving DecidableEq

/-- Context/tenant/namespace resolution of `rag_retrieval_tool`
(src/server.py lines 166–176): gate-guarded extraction and merging, the
path fallback (derive the bot id from the captured path only when the
merged bot id is falsy and the captured path is truthy), and the namespace
equal to the bot id when truthy and to the literal `hr4s` otherwise. -/
def ragResolve (query : List Char) (session_id bot_id : Option (List Char)) :
    RagResolved :=
  if hasTagGate query then
    let ctx := extract_context_from_message query
    let sid := pyOr ctx.session_id session_id
    let bid1 := pyOr ctx.bot_id bot_id
    let bid :=
      if !truthy bid1 && truthy ctx.path then some (get_bot_id_from_path ctx.path)
      else bid1
    { session_id := sid, bot_id := bid
      nspace := if truthy bid then bid.getD [] else "hr4s".data
      query := ctx.clean_message }
  else
    { session_id := session_id
      bot_id := bot_id
      nspace := if truthy bot_id then bot_id.getD [] else "hr4s".data
      query := query }

/-- Python rendering of the hit list (list display of the rendering of
each hit), as interpolated into the formatted result string. -/
def renderHits (hits : List (List Char)) : List Char :=
  '[' :: (String.intercalate ", " (hits.map (⟨·⟩))).data ++ [']']

/-- Embedding of `rag_retrieval_tool` (src/server.py lines 159–198).  The
backend is a parameter `search : namespace → query → SearchOutcome`;
exceptions it raises are the only faults the `try` block can see, and the
`except` clause prefixes the rendered exception with the literal
`Error retrieving context from Pinecone: `. -/
def rag_retrieval_tool (search : List Char → List Char → SearchOutcome)
    (query : List Char) (session_id bot_id : Option (List Char)) : List Char :=
  match search (ragResolve query session_id bot_id).nspace
      (ragResolve query session_id bot_id).query with
  | .err e => "Error retrieving context from Pinecone: ".data ++ e
  | .ok hits =>
    if hits.isEmpty then "Sorry, I couldn\x27t find any relevant information.".data
    else "Here\x27s what I found:\n\n".data ++ renderHits hits

/-- The tag-tenant captured by a tool call: the `bot_id` field of the
extractor when the detection gate fires, nothing otherwise. -/
def capturedBot (q : List Char) : Option (List Char) :=
  if hasTagGate q then (extract_context_from_message q).bot_id else none

/-- The path captured by a tool call, gate-guarded like `capturedBot`. -/
def capturedPath (q : List Char) : Option (List Char) :=
  if hasTagGate q then (extract_context_from_message q).path else none

/-- The session id captured by a tool call, gate-guarded like `capturedBot`. -/
def capturedSession (q : List Char) : Option (List Char) :=
  if hasTagGate q then (extract_context_from_message q).session_id else none

/-- Modelled from the spec (§4.2) for the refinement claims: the final
tenant id under the stated precedence — tag capture, else explicit
argument, else derivation from the captured path, else absent. -/
def specTenant (tagBot explicitBot path : Option (List Char)) :
    Option (List Char) :=
  pyOr tagBot (pyOr explicitBot
    (if truthy path then some (get_bot_id_from_path path) else none))

/-- Presence normalization: an absent-or-empty tenant id collapses to
`none`, matching Python truthiness downstream. -/
def normOpt (o : Option (List Char)) : Option (List Char) :=
  if truthy o then o else none

/-- Modelled from the spec (§4.2 path-derivation rule) for claim C9: strip
leading/trailing `/`, split on `/`, take the last non-empty segment; empty
or null path gives the empty string. -/
def specLastSeg (path : Option (List Char)) : List Char :=
  match path with
  | none => []
  | some l => ((splitSlash (pyStripSlash l)).filter (fun s => !s.isEmpty)).getLastD []

/-- The suffix of a string after its final `/` (`[]` when it ends in `/`),
a proof-side characterization of `split('/')[-1]`. -/
def lastSeg : List Char → List Char
  | [] => []
  | c :: r =>
    if c = '/' then lastSeg r
    else if r.any (· = '/') then lastSeg r
    else c :: lastSeg r

/-- Decidable absence of any deletion-pattern occurrence of `key` in `l`. -/
def noOccB (key : List Char) (l : List Char) : Bool :=
  (List.range (l.length + 1)).all fun i => (subMatch key (l.drop i)).isNone

/-- Absence of any occurrence of all three recognized tags. -/
def noTagOcc (l : List Char) : Bool :=
  noOccB "SESSION_ID".data l && noOccB "PATH".data l && noOccB "BOT_ID".data l

theorem dropLit_eq_some {p l r : List Char} (h : dropLit p l = some r) :
    l = p ++ r := by
  induction p generalizing l with
  | nil => simpa [dropLit] using h
  | cons a ps ih =>
    cases l with
    | nil => simp [dropLit] at h
    | cons c cs =>
      by_cases hac : a = c
      · subst hac
        simp only [dropLit, if_pos rfl] at h
        simpa using ih h
      · simp [dropLit, hac] at h

theorem length_dropWhile_le {α : Type} (p : α → Bool) (l : List α) :
    (l.dropWhile p).length ≤ l.length := by
  induction l with
  | nil => simp
  | cons c r ih =>
    rw [List.dropWhile_cons]
    split
    · exact Nat.le_succ_of_le ih
    · simp

theorem subMatch_nil (key : List Char) : subMatch key [] = none := by
  simp [subMatch, tagLit, dropLit]

theorem subMatch_length {key l rest : List Char}
    (h : subMatch key l = some rest) : rest.length < l.length := by
  unfold subMatch at h
  cases hd : dropLit (tagLit key) l with
  | none => rw [hd, Option.none_bind] at h; simp at h
  | some r =>
    rw [hd, Option.some_bind] at h
    by_cases he : (r.dropWhile (· ≠ ']')).isEmpty
    · rw [if_pos he] at h; simp at h
    · rw [if_neg he] at h
      simp only [Option.some.injEq] at h
      have h1 : l.length = (tagLit key).length + r.length := by
        rw [dropLit_eq_some hd]; simp
      have h2 : (r.dropWhile (· ≠ ']')).length ≤ r.length :=
        length_dropWhile_le _ _
      have h2' : 1 ≤ (r.dropWhile (· ≠ ']')).length := by
        cases hq : r.dropWhile (· ≠ ']') with
        | nil => rw [hq] at he; simp at he
        | cons a r3 => simp
      have h3 : rest.length ≤ (r.dropWhile (· ≠ ']')).tail.length := by
        rw [← h]; exact length_dropWhile_le _ _
      have h4 : 1 ≤ (tagLit key).length := by simp [tagLit]
      rw [List.length_tail] at h3
      omega

theorem reSubF_fuel {key : List Char} :
    ∀ f1 f2 l, l.length ≤ f1 → l.length ≤ f2 →
      reSubF key f1 l = reSubF key f2 l := by
  intro f1
  induction f1 with
  | zero =>
    intro f2 l h1 _
    have : l = [] := List.length_eq_zero.mp (Nat.le_zero.mp h1)
    subst this
    cases f2 <;> simp [reSubF]
  | succ f1 ih =>
    intro f2 l h1 h2
    cases l with
    | nil => cases f2 <;> simp [reSubF]
    | cons c r =>
      cases f2 with
      | zero => simp at h2
      | succ f2 =>
        simp only [reSubF]
        cases hm : subMatch key (c :: r) with
        | some rest =>
          have hlt : rest.length < (c :: r).length := subMatch_length hm
          simp only [List.length_cons] at h1 h2 hlt
          exact ih f2 rest (by omega) (by omega)
        | none =>
          simp only [List.length_cons] at h1 h2
          rw [ih f2 r (by omega) (by omega)]

theorem reSub_nil (key : List Char) : reSub key [] = [] := rfl

theorem reSub_eq_of_match {key l rest : List Char}
    (h : subMatch key l = some rest) : reSub key l = reSub key rest := by
  cases l with
  | nil => rw [subMatch_nil] at h; exact absurd h (by simp)
  | cons c r =>
    have hlt : rest.length < (c :: r).length := subMatch_length h
    show reSubF key (c :: r).length (c :: r) = reSubF key rest.length rest
    simp only [List.length_cons, reSubF, h]
    exact reSubF_fuel _ _ _ (by simp at hlt; omega) (Nat.le_refl _)

theorem reSub_cons_none {key : List Char} {c : Char} {r : List Char}
    (h : subMatch key (c :: r) = none) :
    reSub key (c :: r) = c :: reSub key r := by
  show reSubF key (c :: r).length (c :: r) = _
  simp only [List.length_cons, reSubF, h]
  rfl

theorem reSearch_nil (key : List Char) : reSearch key [] = none := rfl

theorem reSearch_cons_some {key : List Char} {c : Char} {r v : List Char}
    (h : searchMatch key (c :: r) = some v) :
    reSearch key (c :: r) = some v := by
  show reSearchF key (c :: r).length (c :: r) = some v
  simp only [List.length_cons, reSearchF, h]

theorem reSearch_cons_none {key : List Char} {c : Char} {r : List Char}
    (h : searchMatch key (c :: r) = none) :
    reSearch key (c :: r) = reSearch key r := by
  show reSearchF key (c :: r).length (c :: r) = reSearchF key r.length r
  simp only [List.length_cons, reSearchF, h]

theorem noOccB_head {key l : List Char} (h : noOccB key l = true) :
    subMatch key l = none := by
  unfold noOccB at h
  rw [List.all_eq_true] at h
  have h0 := h 0 (by simp [List.mem_range])
  simpa [Option.isNone_iff_eq_none] using h0

theorem noOccB_tail {key : List Char} {c : Char} {r : List Char}
    (h : noOccB key (c :: r) = true) : noOccB key r = true := by
  unfold noOccB at h ⊢
  rw [List.all_eq_true] at h ⊢
  intro i hi
  have hi' : i + 1 ∈ List.range ((c :: r).length + 1) := by
    simp only [List.mem_range] at hi ⊢
    simp only [List.length_cons]
    omega
  have := h (i + 1) hi'
  simpa [List.drop_succ_cons] using this

theorem reSub_of_noOcc {key l : List Char} (h : noOccB key l = true) :
    reSub key l = l := by
  induction l with
  | nil => rfl
  | cons c r ih =>
    rw [reSub_cons_none (noOccB_head h), ih (noOccB_tail h)]

theorem searchMatch_none_of_subMatch_none {key l : List Char}
    (h : subMatch key l = none) : searchMatch key l = none := by
  unfold subMatch at h
  unfold searchMatch
  cases hd : dropLit (tagLit key) l with
  | none => rw [Option.none_bind]
  | some r =>
    rw [hd, Option.some_bind] at h
    rw [Option.some_bind]
    by_cases he : (r.dropWhile (· ≠ ']')).isEmpty
    · rw [if_pos he]
    · rw [if_neg he] at h; simp at h

theorem reSearch_of_noOcc {key l : List Char} (h : noOccB key l = true) :
    reSearch key l = none := by
  induction l with
  | nil => rfl
  | cons c r ih =>
    rw [reSearch_cons_none (searchMatch_none_of_subMatch_none (noOccB_head h))]
    exact ih (noOccB_tail h)

theorem dropWhile_head_false {α : Type} {p : α → Bool} {l r : List α} {c : α}
    (h : l.dropWhile p = c :: r) : p c = false := by
  induction l with
  | nil => simp at h
  | cons a as ih =>
    rw [List.dropWhile_cons] at h
    by_cases ha : p a
    · exact ih (by rwa [if_pos ha] at h)
    · rw [if_neg ha] at h
      cases h
      exact Bool.eq_false_iff.mpr ha

theorem dropWhile_ne_nil_getLast? {α : Type} {p : α → Bool} {l : List α}
    (h : l.dropWhile p ≠ []) : (l.dropWhile p).getLast? = l.getLast? := by
  induction l with
  | nil => simp at h
  | cons a as ih =>
    rw [List.dropWhile_cons]
    by_cases ha : p a
    · rw [List.dropWhile_cons, if_pos ha] at h
      rw [if_pos ha, ih h]
      cases as with
      | nil => simp [List.dropWhile] at h
      | cons b bs => rw [List.getLast?_cons_cons]
    · rw [if_neg ha]

theorem dropWhile_dropWhile {α : Type} (p : α → Bool) (l : List α) :
    (l.dropWhile p).dropWhile p = l.dropWhile p := by
  cases h : l.dropWhile p with
  | nil => rfl
  | cons c r =>
    rw [List.dropWhile_cons, if_neg]
    simp [dropWhile_head_false h]

theorem pyStrip_dropWhile (l : List Char) :
    (pyStrip l).dropWhile isSpacePy = pyStrip l := by
  cases hB : pyStrip l with
  | nil => rfl
  | cons c r =>
    have hhead : (pyStrip l).head? = some c := by rw [hB]; rfl
    have hBne : (l.dropWhile isSpacePy).reverse.dropWhile isSpacePy ≠ [] := by
      intro hz
      rw [pyStrip, hz] at hB
      simp at hB
    have hAne : l.dropWhile isSpacePy ≠ [] := by
      intro hz
      rw [hz] at hBne
      simp at hBne
    obtain ⟨a, as, hA⟩ : ∃ a as, l.dropWhile isSpacePy = a :: as := by
      cases hq : l.dropWhile isSpacePy with
      | nil => exact absurd hq hAne
      | cons x xs => exact ⟨x, xs, rfl⟩
    have hpa : isSpacePy a = false := dropWhile_head_false hA
    have hh2 : (pyStrip l).head? = some a := by
      rw [pyStrip, List.head?_reverse, dropWhile_ne_nil_getLast? hBne,
        List.getLast?_reverse, hA]
      rfl
    rw [hhead] at hh2
    injection hh2 with hac
    have hpc : isSpacePy c = false := by rw [hac]; exact hpa
    rw [List.dropWhile_cons, if_neg (by simp [hpc])]

theorem pyStrip_idem (l : List Char) : pyStrip (pyStrip l) = pyStrip l := by
  conv_lhs => rw [pyStrip, pyStrip_dropWhile]
  rw [pyStrip, List.reverse_reverse, dropWhile_dropWhile]

theorem getLastD_nil {α : Type} (d : α) : ([] : List α).getLastD d = d := rfl

theorem getLastD_one {α : Type} (a d : α) : [a].getLastD d = a := by
  rw [List.getLastD_cons, getLastD_nil]

theorem getLastD_irrel {α : Type} {l : List α} (h : l ≠ []) (d d' : α) :
    l.getLastD d = l.getLastD d' := by
  obtain ⟨x, hx⟩ : ∃ x, l.getLast? = some x := by
    cases hq : l.getLast? with
    | none => exact absurd (List.getLast?_eq_none_iff.mp hq) h
    | some x => exact ⟨x, rfl⟩
  rw [List.getLastD_eq_getLast?, List.getLastD_eq_getLast?, hx]
  rfl

theorem splitSlash_ne_nil (l : List Char) : splitSlash l ≠ [] := by
  cases l with
  | nil => simp [splitSlash]
  | cons c r =>
    unfold splitSlash
    split <;> simp

theorem splitSlash_single_any {r : List Char} {a : List Char}
    (h : splitSlash r = [a]) : r.any (· = '/') = false := by
  induction r generalizing a with
  | nil => rfl
  | cons c rs ih =>
    unfold splitSlash at h
    by_cases hc : c = '/'
    · rw [if_pos hc] at h
      simp only [List.cons.injEq] at h
      exact absurd h.2 (splitSlash_ne_nil rs)
    · rw [if_neg hc] at h
      simp only [List.cons.injEq] at h
      obtain ⟨x, xs, hs⟩ : ∃ x xs, splitSlash rs = x :: xs := by
        cases hq : splitSlash rs with
        | nil => exact absurd hq (splitSlash_ne_nil rs)
        | cons x xs => exact ⟨x, xs, rfl⟩
      have hxs : xs = [] := by
        have := h.2
        rw [hs] at this
        simpa using this
      rw [List.any_cons]
      have h1 : (c = '/' : Bool) = false := by simp [hc]
      have h2 : rs.any (· = '/') = false := ih (by rw [hs, hxs])
      rw [h1, h2]
      rfl

theorem splitSlash_multi_any {r : List Char} {a b : List Char}
    {bs : List (List Char)} (h : splitSlash r = a :: b :: bs) :
    r.any (· = '/') = true := by
  induction r generalizing a b bs with
  | nil => simp [splitSlash] at h
  | cons c rs ih =>
    unfold splitSlash at h
    by_cases hc : c = '/'
    · subst hc
      simp
    · rw [if_neg hc] at h
      simp only [List.cons.injEq] at h
      obtain ⟨x, xs, hs⟩ : ∃ x xs, splitSlash rs = x :: xs := by
        cases hq : splitSlash rs with
        | nil => exact absurd hq (splitSlash_ne_nil rs)
        | cons x xs => exact ⟨x, xs, rfl⟩
      have hxs : xs = b :: bs := by
        have := h.2
        rw [hs] at this
        simpa using this
      rw [List.any_cons]
      rw [ih (by rw [hs, hxs])]
      simp

theorem splitSlash_getLastD_eq_lastSeg (l : List Char) :
    (splitSlash l).getLastD [] = lastSeg l := by
  induction l with
  | nil => rfl
  | cons c r ih =>
    unfold splitSlash lastSeg
    by_cases hc : c = '/'
    · rw [if_pos hc, if_pos hc, List.getLastD_cons]
      exact ih
    · rw [if_neg hc, if_neg hc]
      obtain ⟨x, xs, hs⟩ : ∃ x xs, splitSlash r = x :: xs := by
        cases hq : splitSlash r with
        | nil => exact absurd hq (splitSlash_ne_nil r)
        | cons x xs => exact ⟨x, xs, rfl⟩
      rw [hs] at ih ⊢
      cases xs with
      | nil =>
        have hany : r.any (· = '/') = false := splitSlash_single_any hs
        rw [if_neg (by simp [hany])]
        rw [getLastD_one] at ih
        simp only [List.headD, List.tail]
        rw [getLastD_one, ih]
      | cons y ys =>
        have hany : r.any (· = '/') = true := splitSlash_multi_any hs
        rw [if_pos (by simp [hany])]
        rw [List.getLastD_cons] at ih
        simp only [List.headD, List.tail]
        rw [List.getLastD_cons, getLastD_irrel (l := y :: ys) (by simp) (c :: x) x]
        exact ih

theorem lastSeg_ne_nil {m : List Char} {c : Char} (hl : m.getLast? = some c)
    (hc : c ≠ '/') : lastSeg m ≠ [] := by
  induction m with
  | nil => simp at hl
  | cons a r ih =>
    unfold lastSeg
    cases r with
    | nil =>
      simp only [List.getLast?_singleton, Option.some.injEq] at hl
      subst hl
      rw [if_neg hc]
      rw [if_neg (by simp)]
      simp
    | cons b bs =>
      rw [List.getLast?_cons_cons] at hl
      have hne := ih hl
      by_cases ha : a = '/'
      · rw [if_pos ha]; exact hne
      · rw [if_neg ha]
        by_cases hany : (b :: bs).any (· = '/') = true
        · rw [if_pos hany]; exact hne
        · rw [if_neg hany]; simp

theorem pyStripSlash_getLast {l : List Char} (h : pyStripSlash l ≠ []) :
    ∃ c, (pyStripSlash l).getLast? = some c ∧ c ≠ '/' := by
  unfold pyStripSlash at h ⊢
  cases hq : (l.dropWhile (· = '/')).reverse.dropWhile (· = '/') with
  | nil => rw [hq] at h; simp at h
  | cons c r =>
    refine ⟨c, ?_, ?_⟩
    · rw [List.getLast?_reverse]
      rfl
    · have := dropWhile_head_false hq
      simpa using this

theorem filter_nonempty_ne_nil {ss : List (List Char)}
    (h : ss.getLastD [] ≠ []) : ss.filter (fun s => !s.isEmpty) ≠ [] := by
  induction ss with
  | nil => simp at h
  | cons a t ih =>
    cases t with
    | nil =>
      rw [getLastD_one] at h
      rw [List.filter_cons, if_pos (by simpa using h)]
      simp
    | cons b bs =>
      rw [List.getLastD_cons] at h
      have h' : (b :: bs).getLastD [] ≠ [] := by
        rwa [getLastD_irrel (l := b :: bs) (by simp) [] a]
      have := ih h'
      rw [List.filter_cons]
      split
      · simp
      · exact this

theorem filter_nonempty_getLastD {ss : List (List Char)}
    (h : ss.getLastD [] ≠ []) :
    (ss.filter (fun s => !s.isEmpty)).getLastD [] = ss.getLastD [] := by
  induction ss with
  | nil => simp at h
  | cons a t ih =>
    cases t with
    | nil =>
      rw [getLastD_one] at h
      rw [List.filter_cons, if_pos (by simpa using h)]
      simp [getLastD_one]
    | cons b bs =>
      rw [List.getLastD_cons] at h ⊢
      have h' : (b :: bs).getLastD [] ≠ [] := by
        rwa [getLastD_irrel (l := b :: bs) (by simp) [] a]
      have hrec := ih h'
      rw [List.filter_cons]
      split
      · rw [List.getLastD_cons]
        rw [getLastD_irrel (filter_nonempty_ne_nil h') a []]
        rw [hrec]
        exact (getLastD_irrel (l := b :: bs) (by simp) [] a).symm
      · rw [hrec]
        exact (getLastD_irrel (l := b :: bs) (by simp) [] a).symm

theorem get_bot_id_eq_spec (p : Option (List Char)) :
    get_bot_id_from_path p = specLastSeg p := by
  cases p with
  | none => rfl
  | some l =>
    by_cases hl : l.isEmpty
    · rw [List.isEmpty_iff.mp hl]
      rfl
    · have hcode : get_bot_id_from_path (some l) =
          if l.isEmpty then [] else (splitSlash (pyStripSlash l)).getLastD [] := rfl
      have hspec : specLastSeg (some l) =
          ((splitSlash (pyStripSlash l)).filter (fun s => !s.isEmpty)).getLastD [] := rfl
      rw [hcode, hspec, if_neg hl]
      by_cases hm : pyStripSlash l = []
      · rw [hm]
        rfl
      · obtain ⟨c, hlast, hc⟩ := pyStripSlash_getLast hm
        have h1 := splitSlash_getLastD_eq_lastSeg (pyStripSlash l)
        have h2 : (splitSlash (pyStripSlash l)).getLastD [] ≠ [] := by
          rw [h1]
          exact lastSeg_ne_nil hlast hc
        rw [filter_nonempty_getLastD h2]

theorem ragBot_norm (tag expl path : Option (List Char)) :
    normOpt (if !truthy (pyOr tag expl) && truthy path
      then some (get_bot_id_from_path path) else pyOr tag expl) =
    normOpt (specTenant tag expl path) := by
  cases htag : truthy tag <;> cases hexp : truthy expl <;>
    cases hp : truthy path <;>
      simp [pyOr, specTenant, normOpt, htag, hexp, hp]

theorem dropLit_self_append (p r : List Char) : dropLit p (p ++ r) = some r := by
  induction p with
  | nil => rfl
  | cons a ps ih => simp [dropLit, ih]

theorem takeWhile_append_all {α : Type} {p : α → Bool} {w : List α}
    (hw : ∀ c ∈ w, p c = true) (l : List α) :
    (w ++ l).takeWhile p = w ++ l.takeWhile p := by
  induction w with
  | nil => rfl
  | cons a as ih =>
    have ha : p a = true := hw a (by simp)
    simp only [List.cons_append, List.takeWhile_cons, ha, if_pos]
    rw [ih (fun c hc => hw c (by simp [hc]))]

theorem dropWhile_append_all {α : Type} {p : α → Bool} {w : List α}
    (hw : ∀ c ∈ w, p c = true) (l : List α) :
    (w ++ l).dropWhile p = l.dropWhile p := by
  induction w with
  | nil => rfl
  | cons a as ih =>
    have ha : p a = true := hw a (by simp)
    simp only [List.cons_append, List.dropWhile_cons, ha, if_pos]
    exact ih (fun c hc => hw c (by simp [hc]))

theorem pyStrip_all_space {w : List Char}
    (hw : ∀ c ∈ w, isSpacePy c = true) : pyStrip w = [] := by
  unfold pyStrip
  have h1 : w.dropWhile isSpacePy = [] := by
    have := dropWhile_append_all hw ([] : List Char)
    simpa using this
  rw [h1]
  rfl

theorem ws_ne_rbracket {w : List Char} (hw : ∀ c ∈ w, isSpacePy c = true) :
    ∀ c ∈ w, (decide (c ≠ ']')) = true := by
  intro c hc
  have := hw c hc
  by_cases hcc : c = ']'
  · subst hcc
    simp [isSpacePy] at this
  · simp [hcc]

theorem subMatch_ws {k w rest : List Char}
    (hw : ∀ c ∈ w, isSpacePy c = true) :
    subMatch k (tagLit k ++ (w ++ (']' :: rest))) =
      some (rest.dropWhile isSpacePy) := by
  unfold subMatch
  rw [dropLit_self_append, Option.some_bind]
  rw [dropWhile_append_all (ws_ne_rbracket hw)]
  rw [List.dropWhile_cons, if_neg (by simp)]
  rfl

theorem searchMatch_ws {k w rest : List Char}
    (hw : ∀ c ∈ w, isSpacePy c = true) (hne : w ≠ []) :
    searchMatch k (tagLit k ++ (w ++ (']' :: rest))) = some [] := by
  unfold searchMatch
  rw [dropLit_self_append, Option.some_bind]
  rw [dropWhile_append_all (ws_ne_rbracket hw)]
  rw [List.dropWhile_cons]
  rw [if_neg (show ¬((decide (']' ≠ ']')) = true) by simp)]
  rw [if_neg (show ¬(((']' :: rest).isEmpty) = true) by simp)]
  rw [takeWhile_append_all (ws_ne_rbracket hw)]
  rw [List.takeWhile_cons]
  rw [if_neg (show ¬((decide (']' ≠ ']')) = true) by simp)]
  rw [List.append_nil]
  rw [if_neg (show ¬((w.isEmpty) = true) by simpa using hne)]
  rw [pyStrip_all_space hw]

theorem searchMatch_nil (key : List Char) : searchMatch key [] = none := by
  simp [searchMatch, tagLit, dropLit]

theorem reSearch_eq_some {key l v : List Char}
    (h : searchMatch key l = some v) : reSearch key l = some v := by
  cases l with
  | nil => rw [searchMatch_nil] at h; exact absurd h (by simp)
  | cons c r => exact reSearch_cons_some h

theorem searchMatch_head_ne {key : List Char} {c : Char} {r : List Char}
    (hc : c ≠ '[') : searchMatch key (c :: r) = none := by
  have hd : dropLit (tagLit key) (c :: r) = none := by
    show (if '[' = c then dropLit (key ++ [':']) r else none) = none
    rw [if_neg (fun h => hc h.symm)]
  unfold searchMatch
  rw [hd]
  rfl

theorem reSearch_no_bracket {key l : List Char}
    (h : ∀ c ∈ l, c ≠ '[') : reSearch key l = none := by
  induction l with
  | nil => rfl
  | cons c r ih =>
    rw [reSearch_cons_none (searchMatch_head_ne (h c (by simp)))]
    exact ih (fun c hc => h c (by simp [hc]))

theorem subMatch_head_ne {key : List Char} {c : Char} {r : List Char}
    (hc : c ≠ '[') : subMatch key (c :: r) = none := by
  have hd : dropLit (tagLit key) (c :: r) = none := by
    show (if '[' = c then dropLit (key ++ [':']) r else none) = none
    rw [if_neg (fun h => hc h.symm)]
  unfold subMatch
  rw [hd]
  rfl

theorem reSub_no_bracket {key l : List Char}
    (h : ∀ c ∈ l, c ≠ '[') : reSub key l = l := by
  induction l with
  | nil => rfl
  | cons c r ih =>
    rw [reSub_cons_none (subMatch_head_ne (h c (by simp)))]
    rw [ih (fun c hc => h c (by simp [hc]))]

theorem reSub_mismatch {key : List Char} {a : Char} {T : List Char}
    (hsm : subMatch key (a :: T) = none) (hT : ∀ c ∈ T, c ≠ '[') :
    reSub key (a :: T) = a :: T := by
  rw [reSub_cons_none hsm, reSub_no_bracket hT]

theorem reSearch_mismatch {key : List Char} {a : Char} {T : List Char}
    (hsm : searchMatch key (a :: T) = none) (hT : ∀ c ∈ T, c ≠ '[') :
    reSearch key (a :: T) = none := by
  rw [reSearch_cons_none hsm]
  exact reSearch_no_bracket hT

theorem mem_tag_tail {body w rest : List Char}
    (hbody : ∀ c ∈ body, c ≠ '[') (hw : ∀ c ∈ w, isSpacePy c = true)
    (hrest : ∀ c ∈ rest, c ≠ '[') :
    ∀ c ∈ body ++ (w ++ rest), c ≠ '[' := by
  intro c hc
  rcases List.mem_append.mp hc with h | h
  · exact hbody c h
  · rcases List.mem_append.mp h with h | h
    · intro hcc
      subst hcc
      have := hw _ h
      simp [isSpacePy] at this
    · exact hrest c h

theorem hasInfix_of_dropLit {needle l r : List Char}
    (h : dropLit needle l = some r) : hasInfix needle l = true := by
  cases l with
  | nil => unfold hasInfix; rw [h]; rfl
  | cons c cs => unfold hasInfix; rw [h]; rfl

theorem hasTagGate_true_of_inf {q : List Char}
    (h : hasInfix "[SESSION_ID:".data q = true ∨
      hasInfix "[PATH:".data q = true ∨ hasInfix "[BOT_ID:".data q = true)
    (hq : q ≠ []) : hasTagGate q = true := by
  unfold hasTagGate
  have he : q.isEmpty = false := by
    cases q with
    | nil => exact absurd rfl hq
    | cons c r => rfl
  rcases h with h | h | h <;> simp [he, h]

theorem hasInfix_singleton (c : Char) (l : List Char) :
    hasInfix [c] l = l.contains c := by
  induction l with
  | nil => rfl
  | cons d r ih =>
    unfold hasInfix
    rw [ih, List.contains_cons]
    by_cases hdc : c = d
    · subst hdc
      simp [dropLit]
    · have h1 : dropLit [c] (d :: r) = none := by
        show (if c = d then dropLit [] r else none) = none
        rw [if_neg hdc]
      have h2 : (c == d) = false := by simp [hdc]
      rw [h1, h2]
      rfl

theorem extract_fixed {l : List Char} (hs : pyStrip l = l)
    (h : noTagOcc l = true) :
    extract_context_from_message l = ⟨none, none, none, l⟩ := by
  have h' : (noOccB "SESSION_ID".data l = true ∧ noOccB "PATH".data l = true) ∧
      noOccB "BOT_ID".data l = true := by
    simpa [noTagOcc] using h
  obtain ⟨⟨h1, h2⟩, h3⟩ := h'
  unfold extract_context_from_message
  rw [reSub_of_noOcc h1, reSub_of_noOcc h2, reSub_of_noOcc h3, hs,
    reSearch_of_noOcc h1, reSearch_of_noOcc h2, reSearch_of_noOcc h3]

theorem hasInfix_question (l : List Char) :
    hasInfix "?".data l = l.contains '?' :=
  hasInfix_singleton '?' l

/-- C3: on every retrieval call the search namespace equals the resolved
tenant id when one is present (Python-truthy) and the fixed default
namespace `hr4s` otherwise; in particular the query
`[PATH: e1/acme/Xyz] find hours` with no tag tenant and no explicit tenant
searches namespace `Xyz`. -/
theorem C3_search_namespace :
    (∀ q s b, (ragResolve q s b).nspace =
      if truthy (ragResolve q s b).bot_id
      then ((ragResolve q s b).bot_id).getD [] else "hr4s".data) ∧
    (ragResolve "[PATH: e1/acme/Xyz] find hours".data none none).nspace =
      "Xyz".data := by
  constructor
  · intro q s b
    unfold ragResolve
    by_cases hg : hasTagGate q
    · rw [if_pos hg]
    · rw [if_neg hg]
  · decide

/-- C8: when the reranked search yields zero hits, the retrieval tool
returns exactly the fixed nothing-found message, which is not empty. -/
theorem C8_empty_result_message
    (search : List Char → List Char → SearchOutcome) (q : List Char)
    (s b : Option (List Char))
    (h : search (ragResolve q s b).nspace (ragResolve q s b).query =
      SearchOutcome.ok []) :
    rag_retrieval_tool search q s b =
      "Sorry, I couldn\x27t find any relevant information.".data ∧
    rag_retrieval_tool search q s b ≠ [] := by
  have hout : rag_retrieval_tool search q s b =
      "Sorry, I couldn\x27t find any relevant information.".data := by
    unfold rag_retrieval_tool
    rw [h]
    rfl
  refine ⟨hout, ?_⟩
  rw [hout]
  decide

/-- Witness for C8 at a concrete backend returning zero hits. -/
theorem C8_empty_result_message_witness :
    rag_retrieval_tool (fun _ _ => SearchOutcome.ok []) "find hours".data
        none none =
      "Sorry, I couldn\x27t find any relevant information.".data ∧
    rag_retrieval_tool (fun _ _ => SearchOutcome.ok []) "find hours".data
        none none ≠ [] :=
  C8_empty_result_message _ "find hours".data none none rfl

/-- C9: tenant derivation from a path strips the outer `/`, splits on `/`
and yields the last non-empty segment (proved as equality with the
spec-modelled `specLastSeg`); the documented example derives `QApixW`, and
an empty or null path yields the empty string rather than an error. -/
theorem C9_path_derivation :
    (∀ p, get_bot_id_from_path p = specLastSeg p) ∧
    get_bot_id_from_path (some "e1/burneteyecarepinecone/QApixW".data) =
      "QApixW".data ∧
    get_bot_id_from_path (some []) = [] ∧
    get_bot_id_from_path none = [] :=
  ⟨get_bot_id_eq_spec, by decide, rfl, rfl⟩

/-- C2: no fault crosses a tool boundary.  The retrieval tool always
returns one of its three result strings, and a backend fault `e` yields
exactly the error string carrying `e`; a form tool hit by a fault `e`
returns the failure payload with `success = false` and `e` in the `error`
field (serialized by `renderFormPayload`), and a fault-free form call
returns a success payload. -/
theorem C2_tool_boundary :
    (∀ search q s b,
      (∃ e, search (ragResolve q s b).nspace (ragResolve q s b).query =
          SearchOutcome.err e ∧
        rag_retrieval_tool search q s b =
          "Error retrieving context from Pinecone: ".data ++ e) ∨
      rag_retrieval_tool search q s b =
        "Sorry, I couldn\x27t find any relevant information.".data ∨
      (∃ h1 hs, rag_retrieval_tool search q s b =
        "Here\x27s what I found:\n\n".data ++ renderHits (h1 :: hs))) ∧
    (∀ u1 u2 t q s b e,
      (book_appointment_payload u1 u2 t (some e) q s b).success = false ∧
      (book_appointment_payload u1 u2 t (some e) q s b).error = some e ∧
      book_appointment_tool u1 u2 t (some e) q s b =
        renderFormPayload (book_appointment_payload u1 u2 t (some e) q s b)) ∧
    (∀ cu t q s b e,
      (cancel_appointment_payload cu t (some e) q s b).success = false ∧
      (cancel_appointment_payload cu t (some e) q s b).error = some e ∧
      cancel_appointment_tool cu t (some e) q s b =
        renderFormPayload (cancel_appointment_payload cu t (some e) q s b)) ∧
    (∀ ru t q s b e,
      (reschedule_appointment_payload ru t (some e) q s b).success = false ∧
      (reschedule_appointment_payload ru t (some e) q s b).error = some e ∧
      reschedule_appointment_tool ru t (some e) q s b =
        renderFormPayload
          (reschedule_appointment_payload ru t (some e) q s b)) ∧
    (∀ u1 u2 cu ru t q s b,
      (book_appointment_payload u1 u2 t none q s b).success = true ∧
      (cancel_appointment_payload cu t none q s b).success = true ∧
      (reschedule_appointment_payload ru t none q s b).success = true) := by
  refine ⟨?_, ?_, ?_, ?_, ?_⟩
  · intro search q s b
    cases hs : search (ragResolve q s b).nspace (ragResolve q s b).query with
    | err e =>
      left
      exact ⟨e, rfl, by unfold rag_retrieval_tool; rw [hs]⟩
    | ok hits =>
      cases hits with
      | nil =>
        right; left
        unfold rag_retrieval_tool
        rw [hs]
        rfl
      | cons h1 hs' =>
        right; right
        exact ⟨h1, hs', by unfold rag_retrieval_tool; rw [hs]; rfl⟩
  · intro u1 u2 t q s b e
    exact ⟨rfl, rfl, rfl⟩
  · intro cu t q s b e
    exact ⟨rfl, rfl, rfl⟩
  · intro ru t q s b e
    exact ⟨rfl, rfl, rfl⟩
  · intro u1 u2 cu ru t q s b
    exact ⟨rfl, rfl, rfl⟩

/-- C7: every successful form-tool call returns the selected base template
with `session_id=<resolved id>&ts=<epoch-millis>` appended, joined by `?`
when the template contains no `?` character and by `&` when it already
contains one. -/
theorem C7_form_url_construction (u1 u2 cu ru : List Char) (t : Nat)
    (q : List Char) (s b : Option (List Char)) :
    ((book_appointment_payload u1 u2 t none q s b).form_url =
      some ((if (formResolve q s b).2 = some "fp01".data then u2 else u1) ++
        (if (if (formResolve q s b).2 = some "fp01".data then u2
            else u1).contains '?'
          then "&".data else "?".data) ++
        "session_id=".data ++ resolveSession (formResolve q s b).1 ++
        "&ts=".data ++ (Nat.repr t).data)) ∧
    ((cancel_appointment_payload cu t none q s b).form_url =
      some (cu ++ (if cu.contains '?' then "&".data else "?".data) ++
        "session_id=".data ++ resolveSession (formResolve q s b).1 ++
        "&ts=".data ++ (Nat.repr t).data)) ∧
    ((reschedule_appointment_payload ru t none q s b).form_url =
      some (ru ++ (if ru.contains '?' then "&".data else "?".data) ++
        "session_id=".data ++ resolveSession (formResolve q s b).1 ++
        "&ts=".data ++ (Nat.repr t).data)) := by
  refine ⟨?_, ?_, ?_⟩ <;>
    (simp only [book_appointment_payload, cancel_appointment_payload,
      reschedule_appointment_payload, stampURL]
     rw [hasInfix_singleton])

/-- C5 counterexample: the raw string `hello [SESSION_ID:] world` contains
no complete `[KEY: value]` tag (all three captures are null), yet context
resolution does not return it unchanged: the empty-value tag is deleted and
the clean query becomes `hello world`. -/
theorem C5_counterexample :
    (extract_context_from_message
      "hello [SESSION_ID:] world".data).session_id = none ∧
    (extract_context_from_message "hello [SESSION_ID:] world".data).path =
      none ∧
    (extract_context_from_message
      "hello [SESSION_ID:] world".data).bot_id = none ∧
    (ragResolve "hello [SESSION_ID:] world".data none none).query =
      "hello world".data ∧
    "hello world".data ≠ "hello [SESSION_ID:] world".data := by
  decide

/-- C5 amended: for every raw string containing none of the three literal
tag markers (so the detection gate stays closed), resolution returns the
query unchanged with the explicit arguments untouched and captures nothing;
when a marker is present without a complete tag the captures are still null
but the clean query may differ from the raw string. -/
theorem C5_no_tag_resolution (q : List Char) (s b : Option (List Char))
    (h : hasTagGate q = false) :
    (ragResolve q s b).query = q ∧ (ragResolve q s b).session_id = s ∧
    (ragResolve q s b).bot_id = b ∧ formResolve q s b = (s, b) ∧
    capturedSession q = none ∧ capturedPath q = none ∧
    capturedBot q = none := by
  unfold ragResolve formResolve capturedSession capturedPath capturedBot
  simp [h]

/-- Witness for the C5 amended theorem at a gate-closed concrete query. -/
theorem C5_no_tag_resolution_witness :
    (ragResolve "what are your hours".data (some "s9".data) none).query =
      "what are your hours".data ∧
    (ragResolve "what are your hours".data (some "s9".data) none).session_id
      = some "s9".data ∧
    (ragResolve "what are your hours".data (some "s9".data) none).bot_id =
      none ∧
    formResolve "what are your hours".data (some "s9".data) none =
      (some "s9".data, none) ∧
    capturedSession "what are your hours".data = none ∧
    capturedPath "what are your hours".data = none ∧
    capturedBot "what are your hours".data = none :=
  C5_no_tag_resolution "what are your hours".data (some "s9".data) none
    (by decide)

/-- C4 counterexample: the raw string `[SE[PATH: a]SSION_ID: v]` contains a
recognized `[PATH: a]` tag; deleting it splices a `[SESSION_ID: v]` tag
into the clean message, so re-extraction changes the clean message again
(to the empty string) and extraction is not idempotent. -/
theorem C4_counterexample :
    reSearch "PATH".data "[SE[PATH: a]SSION_ID: v]".data = some "a".data ∧
    (extract_context_from_message
      "[SE[PATH: a]SSION_ID: v]".data).clean_message =
      "[SESSION_ID: v]".data ∧
    (extract_context_from_message "[SESSION_ID: v]".data).clean_message =
      [] ∧
    ([] : List Char) ≠ "[SESSION_ID: v]".data := by
  decide

/-- C4 amended: tag extraction deletes the leftmost non-overlapping
occurrences of the three tag patterns (each with one trailing whitespace
run) and trims the result; whenever the produced clean message contains no
residual tag occurrence — deletion can splice one into existence —
re-extraction is the identity: it returns the clean message unchanged and
captures nothing. -/
theorem C4_extraction_idempotent (m : List Char)
    (h : noTagOcc (extract_context_from_message m).clean_message = true) :
    extract_context_from_message
        ((extract_context_from_message m).clean_message) =
      ⟨none, none, none, (extract_context_from_message m).clean_message⟩ :=
  extract_fixed
    (by
      show pyStrip (pyStrip (reSub "BOT_ID".data
          (reSub "PATH".data (reSub "SESSION_ID".data m)))) =
        pyStrip (reSub "BOT_ID".data
          (reSub "PATH".data (reSub "SESSION_ID".data m)))
      exact pyStrip_idem _)
    h

/-- Witness for the C4 amended theorem on a tagged concrete message. -/
theorem C4_extraction_idempotent_witness :
    extract_context_from_message
        ((extract_context_from_message
          "[PATH: e1/acme/Xyz] find hours".data).clean_message) =
      ⟨none, none, none,
        (extract_context_from_message
          "[PATH: e1/acme/Xyz] find hours".data).clean_message⟩ :=
  C4_extraction_idempotent "[PATH: e1/acme/Xyz] find hours".data (by decide)

theorem truthy_none : truthy none = false := rfl

theorem pyOr_falsy {a z : Option (List Char)}
    (h : a = none ∨ a = some []) : pyOr a z = z := by
  rcases h with h | h <;> subst h <;> rfl

theorem truthy_falsy {a : Option (List Char)}
    (h : a = none ∨ a = some []) : truthy a = false := by
  rcases h with h | h <;> subst h <;> rfl

/-- C6: a form-tool call with no truthy session capture and no explicit
session argument succeeds with the sentinel session id
`fallback-session-id`, and the constructed URL embeds that same value. -/
theorem C6_session_fallback (u1 u2 cu ru : List Char) (t : Nat)
    (q : List Char) (b : Option (List Char))
    (h : truthy (capturedSession q) = false) :
    ((book_appointment_payload u1 u2 t none q none b).success = true ∧
      (book_appointment_payload u1 u2 t none q none b).session_id =
        some "fallback-session-id".data ∧
      (book_appointment_payload u1 u2 t none q none b).form_url =
        some (stampURL
          (if (formResolve q none b).2 = some "fp01".data then u2 else u1)
          "fallback-session-id".data t)) ∧
    ((cancel_appointment_payload cu t none q none b).success = true ∧
      (cancel_appointment_payload cu t none q none b).session_id =
        some "fallback-session-id".data ∧
      (cancel_appointment_payload cu t none q none b).form_url =
        some (stampURL cu "fallback-session-id".data t)) ∧
    ((reschedule_appointment_payload ru t none q none b).success = true ∧
      (reschedule_appointment_payload ru t none q none b).session_id =
        some "fallback-session-id".data ∧
      (reschedule_appointment_payload ru t none q none b).form_url =
        some (stampURL ru "fallback-session-id".data t)) := by
  have hs1 : (formResolve q none b).1 = none := by
    unfold capturedSession at h
    unfold formResolve
    by_cases hg : hasTagGate q
    · rw [if_pos hg] at h
      rw [if_pos hg]
      show pyOr (extract_context_from_message q).session_id none = none
      unfold pyOr
      rw [if_neg (by simp [h])]
    · rw [if_neg hg]
  have hsid : resolveSession (formResolve q none b).1 =
      "fallback-session-id".data := by
    rw [hs1]
    rfl
  refine ⟨⟨rfl, ?_, ?_⟩, ⟨rfl, ?_, ?_⟩, ⟨rfl, ?_, ?_⟩⟩
  · show some (resolveSession (formResolve q none b).1) = _
    rw [hsid]
  · show some (stampURL _ (resolveSession (formResolve q none b).1) t) = _
    rw [hsid]
  · show some (resolveSession (formResolve q none b).1) = _
    rw [hsid]
  · show some (stampURL cu (resolveSession (formResolve q none b).1) t) = _
    rw [hsid]
  · show some (resolveSession (formResolve q none b).1) = _
    rw [hsid]
  · show some (stampURL ru (resolveSession (formResolve q none b).1) t) = _
    rw [hsid]

/-- Witness for C6 at a concrete tag-free query with no explicit session. -/
theorem C6_session_fallback_witness :
    (book_appointment_payload "https://a".data "https://b".data 7 none
        "book me".data none none).session_id =
      some "fallback-session-id".data :=
  ((C6_session_fallback "https://a".data "https://b".data "https://c".data
    "https://d".data 7 "book me".data none (by decide)).1).2.1

theorem ragResolve_bot_gate {q : List Char} (s b : Option (List Char))
    (hg : hasTagGate q = true) :
    (ragResolve q s b).bot_id =
      if !truthy (pyOr (extract_context_from_message q).bot_id b) &&
          truthy (extract_context_from_message q).path
      then some (get_bot_id_from_path (extract_context_from_message q).path)
      else pyOr (extract_context_from_message q).bot_id b := by
  unfold ragResolve
  rw [if_pos hg]

theorem nspace_eq (q : List Char) (s b : Option (List Char)) :
    (ragResolve q s b).nspace =
      if truthy ((ragResolve q s b).bot_id)
      then ((ragResolve q s b).bot_id).getD [] else "hr4s".data := by
  unfold ragResolve
  by_cases hg : hasTagGate q
  · rw [if_pos hg]
  · rw [if_neg hg]

/-- C1 counterexample: the claimed precedence fails for the form tools.  On
the query `[PATH: a/fp01] book` with no tag tenant and no explicit tenant,
the spec-worded precedence resolves the tenant to `fp01` (derived from the
captured path), but the resolution in the booking tool never consults the path
and leaves the tenant absent. -/
theorem C1_counterexample :
    (formResolve "[PATH: a/fp01] book".data none none).2 = none ∧
    specTenant (capturedBot "[PATH: a/fp01] book".data) none
      (capturedPath "[PATH: a/fp01] book".data) = some "fp01".data := by
  decide

/-- C1 amended: the retrieval tool resolves the tenant (an empty string
counting as absent, via `normOpt`) by the precedence tag capture, else
explicit argument, else path derivation, else absent — for every
combination; the form tools use only tag capture, else explicit argument,
else absent, never consulting the path. -/
theorem C1_tenant_precedence :
    (∀ q s b, normOpt ((ragResolve q s b).bot_id) =
      normOpt (specTenant (capturedBot q) b (capturedPath q))) ∧
    (∀ q s b, (formResolve q s b).2 = pyOr (capturedBot q) b) := by
  constructor
  · intro q s b
    unfold capturedBot capturedPath
    by_cases hg : hasTagGate q
    · rw [if_pos hg, if_pos hg, ragResolve_bot_gate s b hg]
      exact ragBot_norm _ _ _
    · rw [if_neg hg, if_neg hg]
      have hb : (ragResolve q s b).bot_id = b := by
        unfold ragResolve
        rw [if_neg hg]
      rw [hb]
      cases htb : truthy b <;>
        simp [specTenant, pyOr, normOpt, htb, truthy_none]
  · intro q s b
    unfold formResolve capturedBot
    by_cases hg : hasTagGate q
    · rw [if_pos hg, if_pos hg]
    · rw [if_neg hg, if_neg hg]
      show b = pyOr none b
      rfl

theorem searchMatch_ws_nil (k rest : List Char) :
    searchMatch k (tagLit k ++ (']' :: rest)) = none := by
  unfold searchMatch
  rw [dropLit_self_append, Option.some_bind]
  rw [List.dropWhile_cons]
  rw [if_neg (show ¬((decide (']' ≠ ']')) = true) by simp)]
  rw [if_neg (show ¬(((']' :: rest).isEmpty) = true) by simp)]
  rw [List.takeWhile_cons]
  rw [if_neg (show ¬((decide (']' ≠ ']')) = true) by simp)]
  rw [if_pos (show (([] : List Char).isEmpty) = true from rfl)]

theorem reSearch_ws_or {k w rest : List Char}
    (hk : ∀ c ∈ k, c ≠ '[') (hw : ∀ c ∈ w, isSpacePy c = true)
    (hrest : ∀ c ∈ rest, c ≠ '[') :
    reSearch k (tagLit k ++ (w ++ (']' :: rest))) = none ∨
    reSearch k (tagLit k ++ (w ++ (']' :: rest))) = some [] := by
  cases w with
  | nil =>
    left
    have hT : ∀ c ∈ (k ++ [':']) ++ (']' :: rest), c ≠ '[' := by
      intro c hc
      rcases List.mem_append.mp hc with h | h
      · rcases List.mem_append.mp h with h | h
        · exact hk c h
        · rw [List.mem_singleton.mp h]
          decide
      · rcases List.mem_cons.mp h with h | h
        · rw [h]
          decide
        · exact hrest c h
    exact reSearch_mismatch (searchMatch_ws_nil k rest) hT
  | cons c0 w' =>
    right
    exact reSearch_eq_some (searchMatch_ws hw (by simp))

/-- C10: a recognized tag whose value is empty or whitespace-only yields no
usable capture for its key (the empty-value form fails the `[^\]]+` capture
pattern outright; the whitespace-only form captures and strips to the empty
string, which is falsy), so resolution falls through to the explicit
argument or the default, while the deletion pattern `[^\]]*` nevertheless
removes the tag occurrence from the clean message.  Shown for all three
keys over an arbitrary whitespace-only value `w`, with the fall-through
observed in the session of the booking tool and the namespace of the
retrieval tool. -/
theorem C10_blank_value_tags (w : List Char)
    (hw : ∀ c ∈ w, isSpacePy c = true) :
    (truthy ((extract_context_from_message
        ("[SESSION_ID:".data ++ w ++ "] hello".data)).session_id) = false ∧
      (extract_context_from_message
        ("[SESSION_ID:".data ++ w ++ "] hello".data)).clean_message =
        "hello".data) ∧
    (truthy ((extract_context_from_message
        ("[PATH:".data ++ w ++ "] hello".data)).path) = false ∧
      (extract_context_from_message
        ("[PATH:".data ++ w ++ "] hello".data)).clean_message =
        "hello".data) ∧
    (truthy ((extract_context_from_message
        ("[BOT_ID:".data ++ w ++ "] hello".data)).bot_id) = false ∧
      (extract_context_from_message
        ("[BOT_ID:".data ++ w ++ "] hello".data)).clean_message =
        "hello".data) ∧
    (∀ u1 u2 t b,
      (book_appointment_payload u1 u2 t none
          ("[SESSION_ID:".data ++ w ++ "] hello".data) none b).session_id =
        some "fallback-session-id".data) ∧
    (∀ u1 u2 t b,
      (book_appointment_payload u1 u2 t none
          ("[SESSION_ID:".data ++ w ++ "] hello".data)
          (some "s2".data) b).session_id = some "s2".data) ∧
    (∀ s, (ragResolve ("[BOT_ID:".data ++ w ++ "] hello".data) s
        none).nspace = "hr4s".data) ∧
    (∀ s, (ragResolve ("[BOT_ID:".data ++ w ++ "] hello".data) s
        (some "b7".data)).nspace = "b7".data) := by
  have hrsS : reSearch "SESSION_ID".data
        ("[SESSION_ID:".data ++ (w ++ "] hello".data)) = none ∨
      reSearch "SESSION_ID".data
        ("[SESSION_ID:".data ++ (w ++ "] hello".data)) = some [] :=
    reSearch_ws_or (by decide) hw (by decide)
  have hrsP : reSearch "PATH".data
        ("[PATH:".data ++ (w ++ "] hello".data)) = none ∨
      reSearch "PATH".data
        ("[PATH:".data ++ (w ++ "] hello".data)) = some [] :=
    reSearch_ws_or (by decide) hw (by decide)
  have hrsB : reSearch "BOT_ID".data
        ("[BOT_ID:".data ++ (w ++ "] hello".data)) = none ∨
      reSearch "BOT_ID".data
        ("[BOT_ID:".data ++ (w ++ "] hello".data)) = some [] :=
    reSearch_ws_or (by decide) hw (by decide)
  have hrsB_path : reSearch "PATH".data
      ("[BOT_ID:".data ++ (w ++ "] hello".data)) = none :=
    reSearch_mismatch rfl (mem_tag_tail (by decide) hw (by decide))
  have hsubS : reSub "SESSION_ID".data
        ("[SESSION_ID:".data ++ (w ++ "] hello".data)) =
      reSub "SESSION_ID".data "hello".data :=
    reSub_eq_of_match (subMatch_ws hw)
  have hsubP : reSub "PATH".data
        ("[PATH:".data ++ (w ++ "] hello".data)) =
      reSub "PATH".data "hello".data :=
    reSub_eq_of_match (subMatch_ws hw)
  have hsubB : reSub "BOT_ID".data
        ("[BOT_ID:".data ++ (w ++ "] hello".data)) =
      reSub "BOT_ID".data "hello".data :=
    reSub_eq_of_match (subMatch_ws hw)
  have hskipSP : reSub "SESSION_ID".data
        ("[PATH:".data ++ (w ++ "] hello".data)) =
      "[PATH:".data ++ (w ++ "] hello".data) :=
    reSub_mismatch rfl (mem_tag_tail (by decide) hw (by decide))
  have hskipSB : reSub "SESSION_ID".data
        ("[BOT_ID:".data ++ (w ++ "] hello".data)) =
      "[BOT_ID:".data ++ (w ++ "] hello".data) :=
    reSub_mismatch rfl (mem_tag_tail (by decide) hw (by decide))
  have hskipPB : reSub "PATH".data
        ("[BOT_ID:".data ++ (w ++ "] hello".data)) =
      "[BOT_ID:".data ++ (w ++ "] hello".data) :=
    reSub_mismatch rfl (mem_tag_tail (by decide) hw (by decide))
  have hgS : hasTagGate ("[SESSION_ID:".data ++ (w ++ "] hello".data)) =
      true :=
    hasTagGate_true_of_inf
      (Or.inl (hasInfix_of_dropLit (dropLit_self_append "[SESSION_ID:".data _)))
      (by
        intro hq
        have hlen := congrArg List.length hq
        simp [List.length_append] at hlen)
  have hgB : hasTagGate ("[BOT_ID:".data ++ (w ++ "] hello".data)) = true :=
    hasTagGate_true_of_inf
      (Or.inr (Or.inr
        (hasInfix_of_dropLit (dropLit_self_append "[BOT_ID:".data _))))
      (by
        intro hq
        have hlen := congrArg List.length hq
        simp [List.length_append] at hlen)
  have hsesN : ∀ b, (formResolve
      ("[SESSION_ID:".data ++ (w ++ "] hello".data)) none b).1 = none := by
    intro b
    unfold formResolve
    rw [if_pos hgS]
    show pyOr (reSearch "SESSION_ID".data
      ("[SESSION_ID:".data ++ (w ++ "] hello".data))) none = none
    exact pyOr_falsy hrsS
  have hsesE : ∀ b, (formResolve
      ("[SESSION_ID:".data ++ (w ++ "] hello".data))
        (some "s2".data) b).1 = some "s2".data := by
    intro b
    unfold formResolve
    rw [if_pos hgS]
    show pyOr (reSearch "SESSION_ID".data
      ("[SESSION_ID:".data ++ (w ++ "] hello".data))) (some "s2".data) =
      some "s2".data
    exact pyOr_falsy hrsS
  refine ⟨⟨?_, ?_⟩, ⟨?_, ?_⟩, ⟨?_, ?_⟩, ?_, ?_, ?_, ?_⟩
  · rw [List.append_assoc]
    exact truthy_falsy hrsS
  · rw [List.append_assoc]
    show pyStrip (reSub "BOT_ID".data (reSub "PATH".data
      (reSub "SESSION_ID".data
        ("[SESSION_ID:".data ++ (w ++ "] hello".data))))) = "hello".data
    rw [hsubS]
    decide
  · rw [List.append_assoc]
    exact truthy_falsy hrsP
  · rw [List.append_assoc]
    show pyStrip (reSub "BOT_ID".data (reSub "PATH".data
      (reSub "SESSION_ID".data
        ("[PATH:".data ++ (w ++ "] hello".data))))) = "hello".data
    rw [hskipSP, hsubP]
    decide
  · rw [List.append_assoc]
    exact truthy_falsy hrsB
  · rw [List.append_assoc]
    show pyStrip (reSub "BOT_ID".data (reSub "PATH".data
      (reSub "SESSION_ID".data
        ("[BOT_ID:".data ++ (w ++ "] hello".data))))) = "hello".data
    rw [hskipSB, hskipPB, hsubB]
    decide
  · intro u1 u2 t b
    rw [List.append_assoc]
    show some (resolveSession (formResolve
      ("[SESSION_ID:".data ++ (w ++ "] hello".data)) none b).1) = _
    rw [hsesN b]
    rfl
  · intro u1 u2 t b
    rw [List.append_assoc]
    show some (resolveSession (formResolve
      ("[SESSION_ID:".data ++ (w ++ "] hello".data))
        (some "s2".data) b).1) = _
    rw [hsesE b]
    rfl
  · intro s
    rw [List.append_assoc, nspace_eq, ragResolve_bot_gate s none hgB]
    have hb1 : pyOr (extract_context_from_message
        ("[BOT_ID:".data ++ (w ++ "] hello".data))).bot_id none = none := by
      show pyOr (reSearch "BOT_ID".data
        ("[BOT_ID:".data ++ (w ++ "] hello".data))) none = none
      exact pyOr_falsy hrsB
    have hp1 : (extract_context_from_message
        ("[BOT_ID:".data ++ (w ++ "] hello".data))).path = none := hrsB_path
    rw [hb1, hp1]
    rfl
  · intro s
    rw [List.append_assoc, nspace_eq,
      ragResolve_bot_gate s (some "b7".data) hgB]
    have hb2 : pyOr (extract_context_from_message
        ("[BOT_ID:".data ++ (w ++ "] hello".data))).bot_id
        (some "b7".data) = some "b7".data := by
      show pyOr (reSearch "BOT_ID".data
        ("[BOT_ID:".data ++ (w ++ "] hello".data))) (some "b7".data) =
        some "b7".data
      exact pyOr_falsy hrsB
    have hp2 : (extract_context_from_message
        ("[BOT_ID:".data ++ (w ++ "] hello".data))).path = none := hrsB_path
    rw [hb2, hp2]
    rfl

/-- Witness for C10 at the documented three-space value. -/
theorem C10_blank_value_tags_witness :
    truthy ((extract_context_from_message
        ("[SESSION_ID:".data ++ "   ".data ++ "] hello".data)).session_id) =
      false ∧
    (extract_context_from_message
        ("[SESSION_ID:".data ++ "   ".data ++ "] hello".data)).clean_message
      = "hello".data :=
  (C10_blank_value_tags "   ".data (by decide)).1

end Evaa
